import Mathlib

/-!
Verification of the flight filtering / normalization / provider-selection
engine of the Travel App repository (`travel_app.py`, `providers/base.py`,
`providers/amadeus.py`, `app_streamlit_new.py`).

The Python code is shallowly embedded: dataclasses become structures,
list comprehensions become `List.filter`, `Optional` becomes `Option`,
fatal errors (`typer.Exit`, uncaught exceptions) become `Except.error`.
Monetary amounts are modelled as rationals (the spec treats `price_total`
as a plain non-negative number).  Timestamps are modelled at minute
resolution, which is the resolution of every timestamp constructed in the
repository; Python `datetime` ordering is lexicographic on the components
for timestamps sharing one timezone, and the repository attaches the
single timezone `Europe/Oslo` to every naive segment timestamp, a
simplification the code itself documents.
-/

namespace TravelApp

/-- Python `str.upper` restricted to the ASCII airline-code alphabet used by
the repository: uppercase every character. -/
def pyUpper (s : String) : String := String.mk (s.data.map Char.toUpper)

/-- Model of Python `datetime.time` as produced by `time(hour, minute)`:
the repository never constructs times with seconds. -/
structure PyTime where
  hour : Int
  minute : Int
deriving DecidableEq, Repr

/-- Python `time` comparison: lexicographic on (hour, minute). -/
def PyTime.le (a b : PyTime) : Bool :=
  decide (a.hour < b.hour ∨ (a.hour = b.hour ∧ a.minute ≤ b.minute))

/-- Model of Python `datetime.date`. -/
structure PyDate where
  year : Int
  month : Int
  day : Int
deriving DecidableEq, Repr

/-- Python `date` comparison: lexicographic on (year, month, day). -/
def PyDate.le (a b : PyDate) : Bool :=
  decide (a.year < b.year ∨
    (a.year = b.year ∧ (a.month < b.month ∨
      (a.month = b.month ∧ a.day ≤ b.day))))

/-- Model of Python `datetime.datetime` at minute resolution.  `tzinfo` is
`none` for a naive timestamp and `some zone` for an aware one. -/
structure PyDateTime where
  year : Int
  month : Int
  day : Int
  hour : Int
  minute : Int
  tzinfo : Option String
deriving DecidableEq, Repr

/-- `datetime.time()`: the time-of-day component, without tzinfo. -/
def PyDateTime.time (t : PyDateTime) : PyTime := ⟨t.hour, t.minute⟩

/-- `datetime.date()`: the calendar-date component. -/
def PyDateTime.date (t : PyDateTime) : PyDate := ⟨t.year, t.month, t.day⟩

/-- `datetime.min`: year 1, month 1, day 1, midnight, naive (no tzinfo). -/
def datetime_min : PyDateTime := ⟨1, 1, 1, 0, 0, none⟩

/-- `providers/base.py` `FlightSegment`: one operated leg. -/
structure FlightSegment where
  from_airport : String
  to_airport : String
  dep_time_local : PyDateTime
  arr_time_local : PyDateTime
  duration_minutes : Int
  flight_number : String
  airline_code : String
deriving DecidableEq, Repr

/-- `FlightSegment.__post_init__`: a naive timestamp gets the fixed
`Europe/Oslo` timezone attached; an aware timestamp is left untouched. -/
def ensureTz (t : PyDateTime) : PyDateTime :=
  match t.tzinfo with
  | none => { t with tzinfo := some "Europe/Oslo" }
  | some _ => t

/-- Constructing a `FlightSegment` runs `__post_init__` on both timestamps. -/
def mkFlightSegment (from_airport to_airport : String)
    (dep_time_local arr_time_local : PyDateTime) (duration_minutes : Int)
    (flight_number airline_code : String) : FlightSegment :=
  ⟨from_airport, to_airport, ensureTz dep_time_local, ensureTz arr_time_local,
    duration_minutes, flight_number, airline_code⟩

/-- `providers/base.py` `Flight`: one priced itinerary. -/
structure Flight where
  price_total : ℚ
  currency : String
  airline_codes : List String
  itinerary : List FlightSegment
  booking_link : Option String
deriving DecidableEq, Repr

/-- `Flight.__post_init__`: if `airline_codes` is empty and segments are
present, derive the codes as `list(set(segment.airline_code ...))`.  Python
leaves the iteration order of the set unspecified; `List.dedup` fixes one
canonical order, and every property about the derived codes is stated
order-insensitively (via `toFinset`). -/
def mkFlight (price_total : ℚ) (currency : String)
    (airline_codes : List String) (itinerary : List FlightSegment)
    (booking_link : Option String) : Flight :=
  if airline_codes = [] ∧ itinerary ≠ [] then
    ⟨price_total, currency, (itinerary.map FlightSegment.airline_code).dedup,
      itinerary, booking_link⟩
  else
    ⟨price_total, currency, airline_codes, itinerary, booking_link⟩

/-- First narrowing pass of `filter_flights` (`if airlines:`).  Python
truthiness: skipped for `None` and for an empty list.  The pass uppercases
every filter code and keeps a flight whose `airline_codes` contain at least
one member of the resulting set. -/
def airlinePass (airlines : Option (List String)) (flights : List Flight) :
    List Flight :=
  match airlines with
  | none => flights
  | some [] => flights
  | some al =>
      let airline_set := al.map pyUpper
      flights.filter (fun f => f.airline_codes.any (airline_set.contains ·))

/-- Second narrowing pass of `filter_flights` (`if max_price is not None:`):
keep flights with `price_total <= max_price`. -/
def pricePass (max_price : Option ℚ) (flights : List Flight) : List Flight :=
  match max_price with
  | none => flights
  | some mp => flights.filter (fun f => decide (f.price_total ≤ mp))

/-- Third narrowing pass of `filter_flights` (`if dep_time_between:`): keep
flights with a non-empty itinerary whose first-segment departure time of day
lies in the inclusive window. -/
def timePass (dep_time_between : Option (PyTime × PyTime))
    (flights : List Flight) : List Flight :=
  match dep_time_between with
  | none => flights
  | some (s, e) =>
      flights.filter (fun f =>
        match f.itinerary with
        | [] => false
        | seg :: _ =>
            PyTime.le s seg.dep_time_local.time &&
            PyTime.le seg.dep_time_local.time e)

/-- Fourth narrowing pass of `filter_flights` (`if dates:`): a range keeps
first-segment departure dates in `[start, end]` inclusive, a single date
keeps exact matches; flights without segments are dropped either way. -/
def datePass (dates : Option (PyDate × Option PyDate))
    (flights : List Flight) : List Flight :=
  match dates with
  | none => flights
  | some (start_date, some end_date) =>
      flights.filter (fun f =>
        match f.itinerary with
        | [] => false
        | seg :: _ =>
            PyDate.le start_date seg.dep_time_local.date &&
            PyDate.le seg.dep_time_local.date end_date)
  | some (start_date, none) =>
      flights.filter (fun f =>
        match f.itinerary with
        | [] => false
        | seg :: _ => seg.dep_time_local.date == start_date)

/-- `travel_app.py` `filter_flights`: the four narrowing passes applied in
source order to the working list (`filtered` is rebound after each pass). -/
def filter_flights (flights : List Flight)
    (airlines : Option (List String)) (max_price : Option ℚ)
    (dep_time_between : Option (PyTime × PyTime))
    (dates : Option (PyDate × Option PyDate)) : List Flight :=
  datePass dates (timePass dep_time_between
    (pricePass max_price (airlinePass airlines flights)))

/-- Days from 1970-01-01 to the given proleptic-Gregorian civil date
(the standard era-based algorithm, with floor division). -/
def daysFromCivil (y m d : Int) : Int :=
  let yAdj := if m ≤ 2 then y - 1 else y
  let era := Int.fdiv yAdj 400
  let yoe := yAdj - era * 400
  let doy := Int.fdiv (153 * (m + (if 2 < m then -3 else 9)) + 2) 5 + d - 1
  let doe := yoe * 365 + Int.fdiv yoe 4 - Int.fdiv yoe 100 + doy
  era * 146097 + doe - 719468

/-- Minutes from the epoch to a timestamp; `a - b` on two Python datetimes
at whole minutes has `total_seconds() // 60` equal to the difference of
these values. -/
def PyDateTime.toEpochMinutes (t : PyDateTime) : Int :=
  daysFromCivil t.year t.month t.day * 1440 + t.hour * 60 + t.minute

/-- A naive timestamp, as `datetime(y, m, d, h, mi)` builds one. -/
def dt_naive (y m d h mi : Int) : PyDateTime := ⟨y, m, d, h, mi, none⟩

/-- `tests/test_filters.py` `create_test_flight`: one OSL→PER segment with
the Oslo timezone attached to both timestamps and the duration computed as
the arrival/departure difference in minutes. -/
def create_test_flight (price : ℚ) (currency : String)
    (airline_codes : List String) (dep_time arr_time : PyDateTime) : Flight :=
  let dep := { dep_time with tzinfo := some "Europe/Oslo" }
  let arr := { arr_time with tzinfo := some "Europe/Oslo" }
  mkFlight price currency airline_codes
    [mkFlightSegment "OSL" "PER" dep arr
      (arr.toEpochMinutes - dep.toEpochMinutes) "TEST123"
      (airline_codes.headD "XX")] none

/-- The first fixture flight: Qatar Airways, 8950 NOK, departing
2025-12-10 07:30. -/
def flight_qr_0730 : Flight :=
  create_test_flight 8950 "NOK" ["QR"]
    (dt_naive 2025 12 10 7 30) (dt_naive 2025 12 11 17 30)

/-- `tests/test_filters.py` `sample_flights`: the six fixture flights. -/
def sample_flights : List Flight :=
  [ flight_qr_0730,
    create_test_flight 11200 "NOK" ["EK"]
      (dt_naive 2025 12 10 9 15) (dt_naive 2025 12 11 17 15),
    create_test_flight 9750 "NOK" ["SQ"]
      (dt_naive 2025 12 10 6 45) (dt_naive 2025 12 11 13 30),
    create_test_flight 10800 "NOK" ["BA"]
      (dt_naive 2025 12 10 14 20) (dt_naive 2025 12 12 3 15),
    create_test_flight 9100 "NOK" ["SK"]
      (dt_naive 2025 12 10 15 45) (dt_naive 2025 12 11 22 45),
    create_test_flight 8500 "NOK" ["QR"]
      (dt_naive 2025 12 11 8 0) (dt_naive 2025 12 12 18 0) ]

/-- Concrete flight carrying the codes `{QR, EK}` used to witness the
airline intersection property. -/
def flight_qrek : Flight := mkFlight 5000 "NOK" ["QR", "EK"] [] none

/-- A flight with a price but no itinerary segments. -/
def no_segment_flight : Flight := mkFlight 9999 "NOK" ["QR"] [] none

/-- Two-leg QR itinerary segments and one EK segment, used to witness the
airline-code derivation of `Flight.__post_init__`. -/
def seg_qr_osl_doh : FlightSegment :=
  mkFlightSegment "OSL" "DOH" (dt_naive 2025 12 10 7 30)
    (dt_naive 2025 12 10 14 0) 390 "QR176" "QR"

def seg_qr_doh_per : FlightSegment :=
  mkFlightSegment "DOH" "PER" (dt_naive 2025 12 10 20 0)
    (dt_naive 2025 12 11 17 30) 660 "QR900" "QR"

def seg_ek_osl_dxb : FlightSegment :=
  mkFlightSegment "OSL" "DXB" (dt_naive 2025 12 10 9 15)
    (dt_naive 2025 12 10 18 0) 405 "EK160" "EK"

/-- Strict Python `datetime` comparison, lexicographic on the components.
The repository only ever attaches the single zone `Europe/Oslo`, so no
offset conversion arises between two aware timestamps. -/
def PyDateTime.lt (a b : PyDateTime) : Bool :=
  decide (a.year < b.year ∨ (a.year = b.year ∧
    (a.month < b.month ∨ (a.month = b.month ∧
      (a.day < b.day ∨ (a.day = b.day ∧
        (a.hour < b.hour ∨ (a.hour = b.hour ∧ a.minute < b.minute))))))))

/-- Python `<` on datetimes: comparing an offset-naive with an offset-aware
timestamp raises `TypeError`, modelled as `Except.error`. -/
def pyLtDatetime (a b : PyDateTime) : Except Unit Bool :=
  if a.tzinfo.isSome = b.tzinfo.isSome then Except.ok (PyDateTime.lt a b)
  else Except.error ()

/-- The `display_flights` sort key for `sort_by == "departure"`:
`f.itinerary[0].dep_time_local if f.itinerary else datetime.min`. -/
def departureKey (f : Flight) : PyDateTime :=
  match f.itinerary with
  | [] => datetime_min
  | seg :: _ => seg.dep_time_local

/-- Stable insertion against a fallible strict comparison: walk the sorted
prefix and place `x` before the first element it is strictly less than.
Any comparison error aborts the whole sort, as a raised `TypeError` aborts
Python `list.sort`. -/
def insertByM {α : Type} (lt : α → α → Except Unit Bool) (x : α) :
    List α → Except Unit (List α)
  | [] => Except.ok [x]
  | y :: ys => do
      let b ← lt x y
      if b then
        pure (x :: y :: ys)
      else do
        let r ← insertByM lt x ys
        pure (y :: r)

/-- Fallible stable sort (insertion sort): the model for Python
`list.sort(key=...)`, which is stable and ascending and propagates any
`TypeError` raised while comparing keys. -/
def sortByM {α : Type} (lt : α → α → Except Unit Bool) (l : List α) :
    Except Unit (List α) :=
  l.foldlM (fun acc x => insertByM lt x acc) []

/-- `display_flights` with `sort_by = "departure"`: sort the flight list by
`departureKey` under Python datetime comparison. -/
def sort_by_departure (fs : List Flight) : Except Unit (List Flight) :=
  sortByM (fun a b => pyLtDatetime (departureKey a) (departureKey b)) fs

/-- The environment variables `get_provider` reads. -/
structure Env where
  provider : Option String
  kiwi_api_key : Option String
  amadeus_api_key : Option String
  skyscanner_api_key : Option String
deriving DecidableEq, Repr

/-- Python truthiness of `os.getenv(...)`: set and non-empty. -/
def truthyEnvVar : Option String → Bool
  | none => false
  | some s => !(s == "")

/-- `PROVIDER_NAME = os.getenv("PROVIDER", "MOCK").upper()`. -/
def provider_name (env : Env) : String := pyUpper (env.provider.getD "MOCK")

/-- The provider variants dispatched by `get_provider`. -/
inductive Provider where
  | mock
  | kiwi
  | amadeus
  | skyscanner
deriving DecidableEq, Repr

/-- `travel_app.py` `get_provider`: returns the chosen provider and whether
the fallback warning is emitted (`PROVIDER_NAME != "MOCK"` on the fallback
branch). -/
def get_provider (env : Env) : Provider × Bool :=
  if provider_name env = "KIWI" ∧ truthyEnvVar env.kiwi_api_key = true then
    (Provider.kiwi, false)
  else if provider_name env = "AMADEUS" ∧
      truthyEnvVar env.amadeus_api_key = true then
    (Provider.amadeus, false)
  else if provider_name env = "SKYSCANNER" ∧
      truthyEnvVar env.skyscanner_api_key = true then
    (Provider.skyscanner, false)
  else
    (Provider.mock, decide (provider_name env ≠ "MOCK"))

/-- What each provider's `search_flights` does when invoked: Mock returns
its dataset, Kiwi issues a live HTTP request (opaque external call), and
the Amadeus and Skyscanner stubs raise `NotImplementedError`
unconditionally. -/
inductive SearchOutcome where
  | results
  | notImplemented
  | externalCall
deriving DecidableEq, Repr

def provider_search_outcome : Provider → SearchOutcome
  | Provider.mock => SearchOutcome.results
  | Provider.kiwi => SearchOutcome.externalCall
  | Provider.amadeus => SearchOutcome.notImplemented
  | Provider.skyscanner => SearchOutcome.notImplemented

/-- Environment selecting Amadeus with its API key present. -/
def env_amadeus_with_key : Env := ⟨some "AMADEUS", none, some "test-key", none⟩

/-- Environment selecting Amadeus with no API key set. -/
def env_amadeus_no_key : Env := ⟨some "AMADEUS", none, none, none⟩

/-- Worker for `pySplit`: accumulate the current token, emitting it at each
separator.  `"".split(sep)` gives `[""]`, matching Python. -/
def pySplitAux (sep : Char) : List Char → List Char → List (List Char)
  | [], acc => [acc.reverse]
  | c :: cs, acc =>
      if c = sep then acc.reverse :: pySplitAux sep cs []
      else pySplitAux sep cs (c :: acc)

/-- Python `str.split(sep)` for a one-character separator. -/
def pySplit (s : String) (sep : Char) : List String :=
  (pySplitAux sep s.data []).map String.mk

/-- Numeric value of a digit string (most significant first). -/
def natOfDigits (ds : List Char) : Nat :=
  ds.foldl (fun a c => a * 10 + (c.toNat - '0'.toNat)) 0

/-- Non-empty and all decimal digits. -/
def isDigits (ds : List Char) : Bool := !ds.isEmpty && ds.all Char.isDigit

/-- Python `int(str)`: strip surrounding whitespace, then an optional sign
followed by at least one digit; anything else raises `ValueError`
(modelled as `none`). -/
def pyInt (s : String) : Option Int :=
  let cs := ((s.data.dropWhile (·.isWhitespace)).reverse.dropWhile
    (·.isWhitespace)).reverse
  match cs with
  | '-' :: ds => if isDigits ds then some (-(natOfDigits ds : Int)) else none
  | '+' :: ds => if isDigits ds then some (natOfDigits ds : Int) else none
  | ds => if isDigits ds then some (natOfDigits ds : Int) else none

/-- Python `time(hour, minute)`: raises `ValueError` (modelled as `none`)
outside 0–23 / 0–59. -/
def pyTimeMk (h m : Int) : Option PyTime :=
  if 0 ≤ h ∧ h ≤ 23 ∧ 0 ≤ m ∧ m ≤ 59 then some ⟨h, m⟩ else none

/-- Pair two parse results; any failure propagates (`ValueError`). -/
def pairOpt : Option Int → Option Int → Option (Int × Int)
  | some h, some m => some (h, m)
  | _, _ => none

/-- `start_hour, start_min = map(int, part.split(":"))`: succeeds exactly
when the colon split yields two parts and both parse as integers. -/
def parse_hm (part : String) : Option (Int × Int) :=
  match pySplit part ':' with
  | [hstr, mstr] => pairOpt (pyInt hstr) (pyInt mstr)
  | _ => none

/-- Build the `(time, time)` result from the two parsed `HH:MM` pairs; a
failed part or an out-of-range `time()` construction is a fatal error. -/
def timesFromParts (pa pb : Option (Int × Int)) :
    Except Unit (Option (PyTime × PyTime)) :=
  match pa, pb with
  | some (h1, m1), some (h2, m2) =>
      match pyTimeMk h1 m1, pyTimeMk h2 m2 with
      | some t1, some t2 => Except.ok (some (t1, t2))
      | _, _ => Except.error ()
  | _, _ => Except.error ()

/-- `travel_app.py` `parse_time_window`: `None` (and, by Python falsiness,
the empty string) pass through as `None`; otherwise split on `-`, parse
both `HH:MM` parts, and build the two `time` values.  Every `ValueError`
on the way (wrong number of parts, non-numeric component, out-of-range
hour/minute) is caught and surfaced as `typer.Exit(1)`, modelled as
`Except.error`. -/
def parse_time_window (time_window : Option String) :
    Except Unit (Option (PyTime × PyTime)) :=
  match time_window with
  | none => Except.ok none
  | some s =>
      if s = "" then Except.ok none
      else
        match pySplit s '-' with
        | [start_str, end_str] =>
            timesFromParts (parse_hm start_str) (parse_hm end_str)
        | _ => Except.error ()

/-- `app_streamlit_new.py` `_iso8601_duration_to_minutes`: full-match the
shape `PT(\d+H)?(\d+M)?`, each group optional; no match (unconsumed
input) yields 0, as do two absent groups. -/
def takeNum (l : List Char) (marker : Char) : Option Nat × List Char :=
  let ds := l.takeWhile Char.isDigit
  match l.drop ds.length with
  | c :: rest =>
      if ds ≠ [] ∧ c = marker then (some (natOfDigits ds), rest)
      else (none, l)
  | [] => (none, l)

/-- Regex body on the character list: require the exact prefix `PT`, then
the optional greedy `(\d+)H` group, then the optional `(\d+)M` group, and
demand that the whole input is consumed (a `fullmatch`). -/
def iso8601_core (l : List Char) : Nat :=
  match l with
  | p :: t :: rest =>
      if p = 'P' ∧ t = 'T' then
        let hr := takeNum rest 'H'
        let mr := takeNum hr.2 'M'
        if mr.2 = [] then (hr.1.getD 0) * 60 + mr.1.getD 0 else 0
      else 0
  | _ => 0

def iso8601_duration_to_minutes (d : String) : Nat := iso8601_core d.data

/-- `fetch_live_offers_amadeus` segment duration: prefer the provider's
reported ISO-8601 duration; when it parses to exactly zero, fall back to
`(arr - dep).total_seconds() // 60`, the timestamp difference in
minutes. -/
def segment_duration_minutes (dur : String) (dep arr : PyDateTime) : Int :=
  let d := iso8601_duration_to_minutes dur
  if d = 0 then arr.toEpochMinutes - dep.toEpochMinutes else (d : Int)

/-- **C1.** `filter_flights` with all four criteria absent returns the input
list unchanged: every pass matches `none` and passes the working list
through. -/
theorem filter_flights_id (fs : List Flight) :
    filter_flights fs none none none none = fs := rfl

/-- **C2.** The price filter boundary is inclusive: a single flight survives
a `max_price` equal to its own `price_total` and is dropped by a `max_price`
one cent (`0.01`) below it. -/
theorem filter_flights_price_boundary (f : Flight) :
    filter_flights [f] none (some f.price_total) none none = [f] ∧
    filter_flights [f] none (some (f.price_total - 1/100)) none none = [] := by
  constructor
  · simp [filter_flights, airlinePass, pricePass, timePass, datePass,
      List.filter]
  · have h : (decide (f.price_total ≤ f.price_total - 1/100)) = false := by
      simp only [decide_eq_false_iff_not]
      intro hle
      linarith
    simp only [filter_flights, airlinePass, pricePass, timePass, datePass,
      List.filter, h]

/-- A function that fixes every element of a list maps the list to itself. -/
theorem map_id_of_forall_eq {α : Type} (g : α → α) :
    ∀ (l : List α), (∀ c ∈ l, g c = c) → l.map g = l
  | [], _ => rfl
  | x :: xs, h => by
      simp only [List.map_cons]
      rw [h x (by simp), map_id_of_forall_eq g xs
        (fun c hc => h c (by simp [hc]))]

/-- **C3.** With a non-empty filter set whose codes are fixed by uppercasing
(as the spec requires of the caller), the airline pass keeps exactly the
flights whose airline-code list meets the filter set: an intersection test,
not a subset test. -/
theorem filter_flights_airlines_intersect (fs : List Flight)
    (al : List String) (f : Flight) (hne : al ≠ [])
    (hup : ∀ c ∈ al, pyUpper c = c) :
    f ∈ filter_flights fs (some al) none none none ↔
      f ∈ fs ∧ ∃ c ∈ f.airline_codes, c ∈ al := by
  have hmap : al.map pyUpper = al := map_id_of_forall_eq pyUpper al hup
  cases al with
  | nil => exact absurd rfl hne
  | cons a as =>
    show f ∈ airlinePass (some (a :: as)) fs ↔
      f ∈ fs ∧ ∃ c ∈ f.airline_codes, c ∈ a :: as
    simp [airlinePass, hmap]

/-- Witness for C3 at a concrete input: a flight with codes `{QR, EK}`
against the filter set `{EK}` (a strict superset on the flight side, so an
intersection test keeps it while a subset test would not). -/
theorem filter_flights_airlines_intersect_witness :
    flight_qrek ∈ filter_flights [flight_qrek] (some ["EK"]) none none none ↔
      flight_qrek ∈ [flight_qrek] ∧
        ∃ c ∈ flight_qrek.airline_codes, c ∈ ["EK"] :=
  filter_flights_airlines_intersect [flight_qrek] ["EK"] flight_qrek
    (by decide) (by decide)

/-- **C10.** `filter_flights` always returns a sublist of its input: every
kept flight comes from the input, input order is preserved, and no flight
is duplicated.  (The embedding is a pure function, mirroring that the
Python code builds fresh lists and never mutates a `Flight`.) -/
theorem filter_flights_sublist (fs : List Flight)
    (airlines : Option (List String)) (max_price : Option ℚ)
    (dep_time_between : Option (PyTime × PyTime))
    (dates : Option (PyDate × Option PyDate)) :
    List.Sublist (filter_flights fs airlines max_price dep_time_between dates)
      fs := by
  have h1 : List.Sublist (airlinePass airlines fs) fs := by
    match airlines with
    | none => exact List.Sublist.refl _
    | some [] => exact List.Sublist.refl _
    | some (a :: as) => exact List.filter_sublist _
  have h2 : ∀ l, List.Sublist (pricePass max_price l) l := by
    intro l
    match max_price with
    | none => exact List.Sublist.refl _
    | some mp => exact List.filter_sublist _
  have h3 : ∀ l, List.Sublist (timePass dep_time_between l) l := by
    intro l
    match dep_time_between with
    | none => exact List.Sublist.refl _
    | some (s, e) => exact List.filter_sublist _
  have h4 : ∀ l, List.Sublist (datePass dates l) l := by
    intro l
    match dates with
    | none => exact List.Sublist.refl _
    | some (sd, some ed) => exact List.filter_sublist _
    | some (sd, none) => exact List.filter_sublist _
  exact ((h4 _).trans ((h3 _).trans ((h2 _).trans h1)))

/-- **C6.** On the six fixture flights, filtering with airlines `["QR"]`,
max price 9000, departure window 06:00–10:00 and the single date
2025-12-10 returns exactly one flight: the QR flight priced 8950 departing
at 07:30. -/
theorem filter_flights_end_to_end_scenario :
    filter_flights sample_flights (some ["QR"]) (some 9000)
        (some (⟨6, 0⟩, ⟨10, 0⟩)) (some (⟨2025, 12, 10⟩, none))
      = [flight_qr_0730] ∧
    flight_qr_0730.price_total = 8950 ∧
    flight_qr_0730.airline_codes = ["QR"] ∧
    flight_qr_0730.itinerary.map (fun s => s.dep_time_local.time)
      = [⟨7, 30⟩] := by
  refine ⟨?_, rfl, rfl, rfl⟩
  rfl

/-- **C9.** `Flight.__post_init__`: with empty `airline_codes` and a
non-empty itinerary, the constructed codes are exactly the set of distinct
segment airline codes (order-insensitively, with no duplicates); a
non-empty `airline_codes` argument is kept verbatim. -/
theorem mkFlight_airline_codes_derivation (p : ℚ) (cur : String)
    (codes : List String) (itin : List FlightSegment)
    (link : Option String) :
    (codes = [] → itin ≠ [] →
      ((mkFlight p cur codes itin link).airline_codes.toFinset
          = (itin.map FlightSegment.airline_code).toFinset ∧
        (mkFlight p cur codes itin link).airline_codes.Nodup)) ∧
    (codes ≠ [] →
      (mkFlight p cur codes itin link).airline_codes = codes) := by
  constructor
  · intro h1 h2
    rw [mkFlight, if_pos ⟨h1, h2⟩]
    refine ⟨?_, List.nodup_dedup _⟩
    ext x
    simp
  · intro h
    rw [mkFlight, if_neg (fun hc => h hc.1)]

/-- Witness for C9 at a concrete input: two QR segments and one EK segment
derive the two-element code set `{QR, EK}` without duplicates. -/
theorem mkFlight_airline_codes_derivation_witness :
    (mkFlight 8950 "NOK" [] [seg_qr_osl_doh, seg_ek_osl_dxb, seg_qr_doh_per]
        none).airline_codes.toFinset
      = ([seg_qr_osl_doh, seg_ek_osl_dxb, seg_qr_doh_per].map
          FlightSegment.airline_code).toFinset ∧
    (mkFlight 8950 "NOK" [] [seg_qr_osl_doh, seg_ek_osl_dxb, seg_qr_doh_per]
        none).airline_codes.Nodup :=
  (mkFlight_airline_codes_derivation 8950 "NOK" []
    [seg_qr_osl_doh, seg_ek_osl_dxb, seg_qr_doh_per] none).1 rfl (by decide)

/-- **C4** (evaluating the code at the failing input).  The `"departure"`
sort key of a segment-less flight is the offset-naive `datetime.min`, while
every flight built from a segment carries an offset-aware timestamp
(`FlightSegment.__post_init__` attaches `Europe/Oslo`).  Python raises
`TypeError` when ordering a naive against an aware datetime, so sorting a
list holding one aware flight and one segment-less flight aborts instead of
placing the segment-less flight first. -/
theorem sort_by_departure_mixed_naive_aware_error :
    pyLtDatetime (departureKey no_segment_flight)
        (departureKey flight_qr_0730) = Except.error () ∧
    sort_by_departure [flight_qr_0730, no_segment_flight]
      = Except.error () := by
  exact ⟨rfl, rfl⟩

/-- **C5** (counterexample).  With `PROVIDER=AMADEUS` and
`AMADEUS_API_KEY` set, the selected variant is unimplemented — its
`search_flights` raises `NotImplementedError` unconditionally — yet
`get_provider` returns the Amadeus provider, not the Mock fallback, so the
search aborts rather than falling back. -/
theorem get_provider_unimplemented_no_fallback :
    (get_provider env_amadeus_with_key).1 = Provider.amadeus ∧
    (get_provider env_amadeus_with_key).1 ≠ Provider.mock ∧
    provider_search_outcome (get_provider env_amadeus_with_key).1
      = SearchOutcome.notImplemented := by
  exact ⟨rfl, fun h => Provider.noConfusion h, rfl⟩

/-- **C5** (amended).  Whenever the required credential of the selected
variant is missing or empty, `get_provider` falls back to the Mock
provider, emitting the warning exactly when the configured provider name
is not `MOCK`; selection itself never aborts. -/
theorem get_provider_missing_credentials_fallback (env : Env)
    (hk : provider_name env = "KIWI" →
      truthyEnvVar env.kiwi_api_key = false)
    (ha : provider_name env = "AMADEUS" →
      truthyEnvVar env.amadeus_api_key = false)
    (hs : provider_name env = "SKYSCANNER" →
      truthyEnvVar env.skyscanner_api_key = false) :
    get_provider env
      = (Provider.mock, decide (provider_name env ≠ "MOCK")) := by
  have n1 : ¬(provider_name env = "KIWI" ∧
      truthyEnvVar env.kiwi_api_key = true) := by
    rintro ⟨e, t⟩
    rw [hk e] at t
    exact Bool.false_ne_true t
  have n2 : ¬(provider_name env = "AMADEUS" ∧
      truthyEnvVar env.amadeus_api_key = true) := by
    rintro ⟨e, t⟩
    rw [ha e] at t
    exact Bool.false_ne_true t
  have n3 : ¬(provider_name env = "SKYSCANNER" ∧
      truthyEnvVar env.skyscanner_api_key = true) := by
    rintro ⟨e, t⟩
    rw [hs e] at t
    exact Bool.false_ne_true t
  simp only [get_provider, n1, n2, n3, if_false, ite_false, if_neg]

/-- Witness for the amended C5: `PROVIDER=AMADEUS` with no key set falls
back to Mock and warns. -/
theorem get_provider_missing_credentials_fallback_witness :
    get_provider env_amadeus_no_key
      = (Provider.mock,
          decide (provider_name env_amadeus_no_key ≠ "MOCK")) :=
  get_provider_missing_credentials_fallback env_amadeus_no_key
    (by decide) (by decide) (by decide)

/-- A missing first parse fails the pairing. -/
theorem pairOpt_none_left (pb : Option Int) : pairOpt none pb = none := by
  cases pb <;> rfl

/-- A missing second parse fails the pairing. -/
theorem pairOpt_none_right (pa : Option Int) : pairOpt pa none = none := by
  cases pa <;> rfl

/-- A failed first `HH:MM` part is a fatal error. -/
theorem timesFromParts_none_left (pb : Option (Int × Int)) :
    timesFromParts none pb = Except.error () := by
  rcases pb with _ | ⟨⟨h2, m2⟩⟩ <;> rfl

/-- A failed second `HH:MM` part is a fatal error. -/
theorem timesFromParts_none_right (pa : Option (Int × Int)) :
    timesFromParts pa none = Except.error () := by
  rcases pa with _ | ⟨⟨h1, m1⟩⟩ <;> rfl

/-- A part whose colon split is not exactly two pieces fails tuple
unpacking (`ValueError`). -/
theorem parse_hm_none_of_split_shape (p : String)
    (h : (pySplit p ':').length ≠ 2) : parse_hm p = none := by
  rw [parse_hm]
  rcases hsp : pySplit p ':' with _ | ⟨x, _ | ⟨y, _ | ⟨z, t⟩⟩⟩
  · rfl
  · rfl
  · rw [hsp] at h
    exact absurd (show ([x, y] : List String).length = 2 from rfl) h
  · rfl

/-- A part with a non-numeric hour or minute component fails `int()`
(`ValueError`). -/
theorem parse_hm_none_of_bad_int (p x y : String)
    (hsp : pySplit p ':' = [x, y])
    (h : pyInt x = none ∨ pyInt y = none) : parse_hm p = none := by
  have hstep : parse_hm p = pairOpt (pyInt x) (pyInt y) := by
    rw [parse_hm, hsp]
  rw [hstep]
  rcases h with h | h
  · rw [h]
    exact pairOpt_none_left _
  · rw [h]
    exact pairOpt_none_right _

/-- Once the dash split has yielded two parts, failure of either part's
`HH:MM` parse makes `parse_time_window` fail. -/
theorem parse_time_window_error_of_bad_parts (s a b : String)
    (hsp : pySplit s '-' = [a, b])
    (h : parse_hm a = none ∨ parse_hm b = none) :
    parse_time_window (some s) = Except.error () := by
  have hs : s ≠ "" := by
    intro he
    subst he
    rw [show pySplit "" '-' = [""] from rfl] at hsp
    simp at hsp
  have hstep : parse_time_window (some s)
      = timesFromParts (parse_hm a) (parse_hm b) := by
    rw [parse_time_window, if_neg hs, hsp]
  rw [hstep]
  rcases h with h | h
  · rw [h]
    exact timesFromParts_none_left _
  · rw [h]
    exact timesFromParts_none_right _

/-- A dash split that is not exactly two parts makes `parse_time_window`
fail (for non-empty input). -/
theorem parse_time_window_error_of_split_shape (s : String) (hs : s ≠ "")
    (h : (pySplit s '-').length ≠ 2) :
    parse_time_window (some s) = Except.error () := by
  rw [parse_time_window, if_neg hs]
  rcases hsp : pySplit s '-' with _ | ⟨a, _ | ⟨b, _ | ⟨c, t⟩⟩⟩
  · rfl
  · rfl
  · rw [hsp] at h
    exact absurd (show ([a, b] : List String).length = 2 from rfl) h
  · rfl

/-- **C7** (counterexample).  The empty string lacks the separator — its
dash split is the one-element list `[""]` — yet `parse_time_window` maps it
to `None` instead of failing, because Python's `if not time_window:`
treats `""` as absent. -/
theorem parse_time_window_empty_string_not_error :
    (pySplit "" '-').length ≠ 2 ∧
    parse_time_window (some "") = Except.ok none :=
  ⟨by decide, rfl⟩

/-- **C7** (amended).  `parse_time_window` maps `None` — and the empty
string, which Python treats as absent — to `None`; maps a well-formed
`"HH:MM-HH:MM"` such as `"06:00-12:00"` to the pair of time values; and on
any other non-empty shape (missing or extra separator, malformed `HH:MM`
part, non-numeric hour or minute) fails with a fatal input error. -/
theorem parse_time_window_spec :
    parse_time_window none = Except.ok none ∧
    parse_time_window (some "") = Except.ok none ∧
    parse_time_window (some "06:00-12:00")
      = Except.ok (some (⟨6, 0⟩, ⟨12, 0⟩)) ∧
    (∀ s : String, s ≠ "" → (pySplit s '-').length ≠ 2 →
      parse_time_window (some s) = Except.error ()) ∧
    (∀ s a b : String, pySplit s '-' = [a, b] →
      (pySplit a ':').length ≠ 2 ∨ (pySplit b ':').length ≠ 2 →
      parse_time_window (some s) = Except.error ()) ∧
    (∀ s a b ha ma hb mb : String, pySplit s '-' = [a, b] →
      pySplit a ':' = [ha, ma] → pySplit b ':' = [hb, mb] →
      pyInt ha = none ∨ pyInt ma = none ∨ pyInt hb = none ∨
        pyInt mb = none →
      parse_time_window (some s) = Except.error ()) := by
  refine ⟨rfl, rfl, rfl, parse_time_window_error_of_split_shape, ?_, ?_⟩
  · intro s a b hsp h
    exact parse_time_window_error_of_bad_parts s a b hsp
      (h.imp (parse_hm_none_of_split_shape a)
        (parse_hm_none_of_split_shape b))
  · intro s a b ha ma hb mb hsp hA hB h
    apply parse_time_window_error_of_bad_parts s a b hsp
    rcases h with h | h | h | h
    · exact Or.inl (parse_hm_none_of_bad_int a ha ma hA (Or.inl h))
    · exact Or.inl (parse_hm_none_of_bad_int a ha ma hA (Or.inr h))
    · exact Or.inr (parse_hm_none_of_bad_int b hb mb hB (Or.inl h))
    · exact Or.inr (parse_hm_none_of_bad_int b hb mb hB (Or.inr h))

/-- Witness for the amended C7: the spec's own example `"bad"` (no
separator) is a fatal input error. -/
theorem parse_time_window_spec_witness :
    parse_time_window (some "bad") = Except.error () :=
  parse_time_window_spec.2.2.2.1 "bad" (by decide) (by decide)

/-- `takeWhile` over digits stops exactly at a non-digit boundary. -/
theorem takeWhile_append_boundary (p : Char → Bool) (hs : List Char)
    (x : Char) (t : List Char) (hall : ∀ c ∈ hs, p c = true)
    (hx : p x = false) : (hs ++ x :: t).takeWhile p = hs := by
  induction hs with
  | nil => simp [List.takeWhile_cons, hx]
  | cons c cs ih =>
      have hc : p c = true := hall c (by simp)
      simp [List.takeWhile_cons, hc,
        ih (fun d hd => hall d (by simp [hd]))]

/-- A maximal non-empty digit run followed by the marker is consumed
together with the marker. -/
theorem takeNum_marker (hs t : List Char) (marker : Char) (hh : hs ≠ [])
    (hall : ∀ c ∈ hs, c.isDigit = true) (hmk : marker.isDigit = false) :
    takeNum (hs ++ marker :: t) marker = (some (natOfDigits hs), t) := by
  have htw : (hs ++ marker :: t).takeWhile Char.isDigit = hs :=
    takeWhile_append_boundary Char.isDigit hs marker t hall hmk
  simp only [takeNum, htw, List.drop_left]
  simp [hh]

/-- A digit run followed by a different non-digit character leaves the
input untouched (the optional group matches empty). -/
theorem takeNum_no_marker (hs t : List Char) (marker x : Char)
    (hall : ∀ c ∈ hs, c.isDigit = true) (hx : x.isDigit = false)
    (hxm : x ≠ marker) :
    takeNum (hs ++ x :: t) marker = (none, hs ++ x :: t) := by
  have htw : (hs ++ x :: t).takeWhile Char.isDigit = hs :=
    takeWhile_append_boundary Char.isDigit hs x t hall hx
  simp only [takeNum, htw, List.drop_left]
  simp [hxm]

/-- **C8.** ISO-8601-style duration parsing extracts the hour and minute
groups independently — either may be absent, both absent (`"PT"`) gives 0
— and whenever the parsed duration is exactly zero the segment duration is
instead derived as arrival minus departure in minutes. -/
theorem iso8601_duration_parsing (hs ms : List Char) (hh : hs ≠ [])
    (hm : ms ≠ []) (hdh : ∀ c ∈ hs, c.isDigit = true)
    (hdm : ∀ c ∈ ms, c.isDigit = true) :
    iso8601_duration_to_minutes
        (String.mk ('P' :: 'T' :: (hs ++ 'H' :: (ms ++ ['M']))))
      = natOfDigits hs * 60 + natOfDigits ms ∧
    iso8601_duration_to_minutes (String.mk ('P' :: 'T' :: (hs ++ ['H'])))
      = natOfDigits hs * 60 ∧
    iso8601_duration_to_minutes (String.mk ('P' :: 'T' :: (ms ++ ['M'])))
      = natOfDigits ms ∧
    iso8601_duration_to_minutes "PT" = 0 ∧
    (∀ (dur : String) (dep arr : PyDateTime),
      iso8601_duration_to_minutes dur = 0 →
      segment_duration_minutes dur dep arr
        = arr.toEpochMinutes - dep.toEpochMinutes) := by
  have hH : ('H' : Char).isDigit = false := rfl
  have hM : ('M' : Char).isDigit = false := rfl
  refine ⟨?_, ?_, ?_, rfl, ?_⟩
  · have e1 := takeNum_marker hs (ms ++ ['M']) 'H' hh hdh hH
    have e2 := takeNum_marker ms [] 'M' hm hdm hM
    show iso8601_core ('P' :: 'T' :: (hs ++ 'H' :: (ms ++ ['M']))) = _
    rw [iso8601_core]
    rw [if_pos ⟨rfl, rfl⟩]
    simp only [e1, e2]
    simp
  · have e1 := takeNum_marker hs [] 'H' hh hdh hH
    have e0 : takeNum ([] : List Char) 'M' = (none, []) := rfl
    show iso8601_core ('P' :: 'T' :: (hs ++ ['H'])) = _
    rw [iso8601_core]
    rw [if_pos ⟨rfl, rfl⟩]
    simp only [show hs ++ ['H'] = hs ++ 'H' :: [] from rfl, e1, e0]
    simp
  · have e1 := takeNum_no_marker ms [] 'H' 'M' hdm hM (by decide)
    have e2 := takeNum_marker ms [] 'M' hm hdm hM
    show iso8601_core ('P' :: 'T' :: (ms ++ ['M'])) = _
    rw [iso8601_core]
    rw [if_pos ⟨rfl, rfl⟩]
    simp only [show ms ++ ['M'] = ms ++ 'M' :: [] from rfl, e1, e2]
    simp
  · intro dur dep arr h
    simp [segment_duration_minutes, h]

/-- Witness for C8: `"PT11H5M"` parses to 11 hours 5 minutes = 665. -/
theorem iso8601_duration_parsing_witness :
    iso8601_duration_to_minutes
        (String.mk ('P' :: 'T' :: (['1', '1'] ++ 'H' :: (['5'] ++ ['M']))))
      = natOfDigits ['1', '1'] * 60 + natOfDigits ['5'] :=
  (iso8601_duration_parsing ['1', '1'] ['5'] (by decide) (by decide)
    (by decide) (by decide)).1

end TravelApp
